import Mathlib

/-!
Verification development for a single-file data-analysis application
(`app.py`).  The application lets a user upload a CSV, builds a textual
analysis prompt from the resulting dataframe, forwards it to one of two
LLM providers (a local Ollama HTTP server or the hosted Gemini API), and
renders the returned markdown together with an optional bar chart and a
download button.

The embedding below is a shallow functional translation of the relevant
Python code.  External effects (the HTTP network, the Gemini library,
the pandas renderers) are modelled as explicit parameters or as opaque
string fields carried by the data model; the control flow, string
templates and guard conditions are translated statement by statement
from the source.
-/

/-- Outcome of a Python computation: either a returned value or an
uncaught exception (identified by its exception-class name). -/
inductive PyResult (α : Type) where
  | ok (v : α)
  | raised (exn : String)
  deriving Repr, DecidableEq

/-- JSON request body sent by `OllamaProvider.generate_response`:
`{"model": ..., "prompt": ..., "stream": false}`. -/
structure Payload where
  model : String
  prompt : String
  stream : Bool
  deriving Repr, DecidableEq

/-- What the network does for one HTTP POST: either `requests.post`
raises a `RequestException` (connection refused, timeout, ...), or a
reply arrives with a status code and a JSON-object body modelled as an
association list of string fields. -/
inductive HttpOutcome where
  | transportError (msg : String)
  | reply (status : Nat) (body : List (String × String))
  deriving Repr, DecidableEq

/-- In-memory dataframe.  `columns` and `rows` model the table itself;
`render` models the external pandas `to_string` pretty-printer for a
frame with given columns and rows, and `describeStr` models the text
produced by `describe().to_string()` (pandas library output, opaque to
this program). -/
structure DataFrame where
  columns : List String
  rows : List (List String)
  render : List String → List (List String) → String
  describeStr : String

/-- `df.head()`: pandas keeps the first five rows by default. -/
def DataFrame.head (df : DataFrame) : DataFrame :=
  { df with rows := df.rows.take 5 }

/-- `df.to_string()` on this frame. -/
def DataFrame.renderSelf (df : DataFrame) : String :=
  df.render df.columns df.rows

/-- Translation of `OllamaProvider.generate_response` (app.py lines
20-33).  `net` is the environment: the outcome of
`requests.post(self.url, json=payload)`.  A `RequestException` from the
transport, or the `HTTPError` raised by `raise_for_status()` on a 4xx or
5xx status, is caught by the `except requests.exceptions.RequestException`
clause, which reports the error and returns `None`.  Otherwise
`response.json()['response']` is returned; a missing `response` key
raises `KeyError`, which no clause catches. -/
def OllamaProvider.generate_response (model prompt : String)
    (net : Payload → HttpOutcome) : PyResult (Option String) :=
  let payload : Payload := { model := model, prompt := prompt, stream := false }
  match net payload with
  | .transportError _ => .ok none
  | .reply status body =>
    if 400 ≤ status ∧ status < 600 then .ok none
    else
      match body.lookup "response" with
      | some v => .ok (some v)
      | none => .raised "KeyError"

/-- Translation of `GeminiProvider.generate_response` (app.py lines
40-46).  `gem` is the environment: what `self.model.generate_content`
does for a given prompt (returns text or raises).  Every exception is
caught, reported, and turned into `None`. -/
def GeminiProvider.generate_response (prompt : String)
    (gem : String → PyResult String) : PyResult (Option String) :=
  match gem prompt with
  | .ok t => .ok (some t)
  | .raised _ => .ok none

/-- The two provider variants selectable in the sidebar. -/
inductive LLMProvider where
  | ollama (model : String)
  | gemini (apiKey : String)
  deriving Repr, DecidableEq

/-- Whether this provider is the hosted (Gemini) variant. -/
def LLMProvider.isGemini : LLMProvider → Bool
  | .gemini _ => true
  | .ollama _ => false

/-- Dispatch of `llm_provider.generate_response(prompt)` over the two
variants.  `net` and `gem` are the two external environments; each
variant consults only its own. -/
def LLMProvider.generate_response (p : LLMProvider) (prompt : String)
    (net : Payload → HttpOutcome) (gem : String → String → PyResult String) :
    PyResult (Option String) :=
  match p with
  | .ollama m => OllamaProvider.generate_response m prompt net
  | .gemini k => GeminiProvider.generate_response prompt (gem k)

/-- `DataAnalyzer` holds the dataframe and the selected provider. -/
structure DataAnalyzer where
  df : DataFrame
  llm_provider : LLMProvider

/-- The `Additional Context` slot of the prompt:
`{context if context else 'No additional context provided'}` — Python
truthiness, so both `None` and the empty string yield the placeholder. -/
def contextText : Option String → String
  | some c => if c = "" then "No additional context provided" else c
  | none => "No additional context provided"

/-- Leading literal of the prompt f-string (app.py line 64). -/
def promptHeader : String :=
  "You are a data analyst examining political survey data. Here\x27s the context:\n\n"

/-- Trailing literal of the prompt f-string (app.py lines 72-79): the
five required analysis aspects and the markdown directive. -/
def promptTail : String :=
  "\n\nPlease provide a detailed analysis that includes:\n1. Direct answers to the specific question\n2. Relevant statistical insights\n3. Notable patterns or trends\n4. Important demographic variations\n5. Historical comparisons where applicable\n\nFormat your response in a clear, structured manner using markdown formatting."

/-- Translation of `DataAnalyzer.generate_analysis_prompt` (app.py lines
53-81), following the source's `df_info += ...` accumulation statement
by statement. -/
def DataAnalyzer.generate_analysis_prompt (a : DataAnalyzer)
    (question : String) (context : Option String) : String :=
  let df_info := "Dataset Summary:\n"
  let df_info := df_info ++ ("Columns: " ++ String.intercalate ", " a.df.columns ++ "\n")
  let df_info := df_info ++ ("Total Rows: " ++ toString a.df.rows.length ++ "\n\n")
  let df_info := df_info ++ "Statistical Summary:\n"
  let df_info := df_info ++ a.df.describeStr
  let df_info := df_info ++ "\n\nSample Data:\n"
  let df_info := df_info ++ a.df.head.renderSelf
  promptHeader ++ df_info ++ "\n\nAdditional Context: " ++ contextText context
    ++ "\n\nQuestion: " ++ question ++ promptTail

/-- State-passing form of `generate_analysis_prompt`: the method's only
assignments are to the local variables `df_info` and `prompt`; it never
assigns to `self.df` or `self.llm_provider`, so the post-state of the
analyzer is its pre-state. -/
def DataAnalyzer.generate_analysis_prompt_run (a : DataAnalyzer)
    (question : String) (context : Option String) : String × DataAnalyzer :=
  (a.generate_analysis_prompt question context, a)

/-- Translation of `DataAnalyzer.analyze` (app.py lines 83-85): build
the prompt, forward it to the provider, return the provider's result. -/
def DataAnalyzer.analyze (a : DataAnalyzer) (question : String)
    (context : Option String) (net : Payload → HttpOutcome)
    (gem : String → String → PyResult String) : PyResult (Option String) :=
  let prompt := a.generate_analysis_prompt question context
  a.llm_provider.generate_response prompt net gem

/-- A plotly bar-chart figure, recorded by its construction arguments. -/
structure Fig where
  x : String
  y : String
  color : String
  barmode : String
  title : String
  deriving Repr, DecidableEq

/-- Modelled from the plotly express library: `px.bar(df, x=..., y=...,
color=..., ...)` raises `ValueError` when any of the named columns is
absent from the dataframe, and otherwise builds the figure. -/
def px_bar (df : DataFrame) (x y color barmode title : String) : PyResult Fig :=
  if x ∈ df.columns ∧ y ∈ df.columns ∧ color ∈ df.columns then
    .ok { x := x, y := y, color := color, barmode := barmode, title := title }
  else
    .raised "ValueError"

/-- Translation of `Visualizer.create_visualization` (app.py lines
88-94): for the kind `"gender_distribution"` it calls `px.bar` with the
fixed column names and returns the figure; for every other kind it falls
through to `return None`.  Nothing inside catches the `ValueError` that
`px.bar` raises on missing columns. -/
def Visualizer.create_visualization (df : DataFrame) (analysis_type : String) :
    PyResult (Option Fig) :=
  if analysis_type = "gender_distribution" then
    match px_bar df "Gender" "Support" "Party" "group" "Party Support by Gender" with
    | .ok f => .ok (some f)
    | .raised e => .raised e
  else .ok none

/-- Python truthiness of the `analysis` value at `if analysis:` —
`None` and the empty string are falsy, any other string is truthy. -/
def truthyStr : Option String → Bool
  | none => false
  | some s => !s.isEmpty

/-- Observable outcome of one press of the Analyze button: which error
and warning messages were shown, whether a `GeminiProvider` was
constructed, whether a backend call was attempted, and what was rendered
(markdown result, chart, download-button content). -/
structure FlowTrace where
  errorMsgs : List String
  warnings : List String
  constructedGemini : Bool
  backendCalled : Bool
  resultShown : Option String
  chartShown : Option Fig
  downloadData : Option String
  deriving Repr, DecidableEq

/-- The trace of the missing-API-key short circuit (app.py lines
168-170): the error is shown and the handler returns before any
provider is constructed or called. -/
def keyMissingTrace : FlowTrace :=
  { errorMsgs := ["Please enter your Gemini API key in the sidebar"]
    warnings := []
    constructedGemini := false
    backendCalled := false
    resultShown := none
    chartShown := none
    downloadData := none }

/-- The trace when `if analysis:` is falsy (app.py line 177): the whole
rendering block is skipped, so no result, chart or download button. -/
def skipTrace (isGem : Bool) : FlowTrace :=
  { errorMsgs := []
    warnings := []
    constructedGemini := isGem
    backendCalled := true
    resultShown := none
    chartShown := none
    downloadData := none }

/-- Translation of app.py lines 181-187: for the Gender-based analysis
type the chart is attempted inside `try/except`; an exception yields the
warning, and `if fig:` shows the chart only when it is not `None`. -/
def tryViz (df : DataFrame) : Option Fig × List String :=
  match Visualizer.create_visualization df "gender_distribution" with
  | .ok figOpt => (figOpt, [])
  | .raised _ => (none, ["Could not create visualization with the current data format"])

/-- The body of the analyze branch after a provider has been selected
(app.py lines 173-194): run the analysis, then render result, optional
chart and download button only when `analysis` is truthy. -/
def runAnalysis (llm : LLMProvider) (df : DataFrame)
    (analysis_type context question : String)
    (net : Payload → HttpOutcome) (gem : String → String → PyResult String) :
    PyResult FlowTrace :=
  match DataAnalyzer.analyze { df := df, llm_provider := llm } question (some context) net gem with
  | .raised e => .raised e
  | .ok analysis =>
    if truthyStr analysis then
      let vw := if analysis_type = "Gender-based Analysis" then tryViz df else (none, [])
      .ok { errorMsgs := []
            warnings := vw.2
            constructedGemini := llm.isGemini
            backendCalled := true
            resultShown := analysis
            chartShown := vw.1
            downloadData := analysis }
    else
      .ok (skipTrace llm.isGemini)

/-- Translation of the Analyze button handler (app.py lines 163-194):
provider selection with the missing-key short circuit, then the analysis
and rendering. -/
def analyze_click (provider model apiKey : String) (df : DataFrame)
    (analysis_type context question : String)
    (net : Payload → HttpOutcome) (gem : String → String → PyResult String) :
    PyResult FlowTrace :=
  if provider = "Ollama" then
    runAnalysis (.ollama model) df analysis_type context question net gem
  else if apiKey = "" then
    .ok keyMissingTrace
  else
    runAnalysis (.gemini apiKey) df analysis_type context question net gem

/-- Concrete dataframe lacking the chart columns, for counterexamples. -/
def dfNoGender : DataFrame :=
  { columns := ["Age"], rows := [], render := fun _ _ => "", describeStr := "" }

/-- Concrete survey dataframe with the three chart columns. -/
def dfSurvey : DataFrame :=
  { columns := ["Gender", "Party", "Support"]
    rows := [["M", "A", "40"], ["F", "B", "60"]]
    render := fun _ _ => "", describeStr := "" }

/-- Gemini environment that is never consulted in Ollama scenarios. -/
def gemUnused : String → String → PyResult String := fun _ _ => .raised "Unused"

/-- The `df_info` accumulator value at the end of lines 54-62. -/
def datasetInfo (df : DataFrame) : String :=
  "Dataset Summary:\n" ++ ("Columns: " ++ String.intercalate ", " df.columns ++ "\n")
    ++ ("Total Rows: " ++ toString df.rows.length ++ "\n\n")
    ++ "Statistical Summary:\n" ++ df.describeStr
    ++ "\n\nSample Data:\n" ++ df.head.renderSelf

/-- Shared shape lemma: the prompt is the header, the dataset info, the
context slot, the question and the tail, in that order. -/
theorem generate_analysis_prompt_eq (a : DataAnalyzer) (q : String) (c : Option String) :
    a.generate_analysis_prompt q c =
      promptHeader ++ datasetInfo a.df ++ "\n\nAdditional Context: " ++ contextText c
        ++ "\n\nQuestion: " ++ q ++ promptTail := rfl

/-- C1 counterexample: on a dataframe lacking the `Gender`, `Support`
and `Party` columns, `create_visualization(df, "gender_distribution")`
raises `ValueError` (from `px.bar`) instead of returning `None`. -/
theorem create_visualization_missing_column_faults :
    Visualizer.create_visualization dfNoGender "gender_distribution" = .raised "ValueError" ∧
    Visualizer.create_visualization dfNoGender "gender_distribution" ≠ .ok none := by
  decide

/-- C1 (amended): for any kind other than `"gender_distribution"` the
selector returns `None`; for `"gender_distribution"` with any required
column missing it raises `ValueError`, which the caller must catch. -/
theorem create_visualization_behavior (df : DataFrame) (kind : String) :
    (kind ≠ "gender_distribution" → Visualizer.create_visualization df kind = .ok none) ∧
    (¬ ("Gender" ∈ df.columns ∧ "Support" ∈ df.columns ∧ "Party" ∈ df.columns) →
      Visualizer.create_visualization df "gender_distribution" = .raised "ValueError") := by
  constructor
  · intro h
    simp [Visualizer.create_visualization, h]
  · intro h
    simp [Visualizer.create_visualization, px_bar, h]

/-- Witness for the amended C1 at concrete dataframes and kinds. -/
theorem create_visualization_behavior_witness :
    Visualizer.create_visualization dfSurvey "other_kind" = .ok none ∧
    Visualizer.create_visualization dfNoGender "gender_distribution" = .raised "ValueError" :=
  ⟨(create_visualization_behavior dfSurvey "other_kind").1 (by decide),
   (create_visualization_behavior dfNoGender "gender_distribution").2 (by decide)⟩

/-- C2: whenever the POST raises a transport error, or the reply carries
an HTTP error status (4xx/5xx, so `raise_for_status` raises),
`generate_response` returns `None` and no exception escapes. -/
theorem ollama_error_returns_none (model prompt : String) (net : Payload → HttpOutcome)
    (h : (∃ msg, net { model := model, prompt := prompt, stream := false } =
            .transportError msg) ∨
         (∃ status body, net { model := model, prompt := prompt, stream := false } =
            .reply status body ∧ 400 ≤ status ∧ status < 600)) :
    OllamaProvider.generate_response model prompt net = .ok none := by
  rcases h with ⟨msg, hm⟩ | ⟨s, b, hr, h4, h6⟩
  · simp [OllamaProvider.generate_response, hm]
  · simp [OllamaProvider.generate_response, hr, h4, h6]

/-- Witness for C2: an unreachable endpoint yields the sentinel. -/
theorem ollama_error_returns_none_witness :
    OllamaProvider.generate_response "llama2" "p"
      (fun _ => .transportError "connection refused") = .ok none :=
  ollama_error_returns_none "llama2" "p" (fun _ => .transportError "connection refused")
    (Or.inl ⟨"connection refused", rfl⟩)

/-- C9: a successful POST whose JSON body lacks the `response` key makes
`generate_response` raise `KeyError`, which its `except` clause (scoped
to `RequestException`) does not catch. -/
theorem ollama_missing_response_key_raises :
    OllamaProvider.generate_response "llama2" "p"
      (fun _ => .reply 200 [("done", "true")]) = .raised "KeyError" := by
  decide

/-- C3: the prompt is the concatenation, in fixed order, of the column
names, the row count, the statistics text, the rendering of the leading
five rows, the context slot, the question and the fixed instructional
suffix; the sample is `rows.take 5` and an absent context renders as the
placeholder. -/
theorem prompt_is_ordered_concatenation (a : DataAnalyzer) (q : String) (c : Option String) :
    (a.generate_analysis_prompt q c =
      promptHeader
        ++ "Dataset Summary:\n"
        ++ ("Columns: " ++ String.intercalate ", " a.df.columns ++ "\n")
        ++ ("Total Rows: " ++ toString a.df.rows.length ++ "\n\n")
        ++ ("Statistical Summary:\n" ++ a.df.describeStr)
        ++ ("\n\nSample Data:\n" ++ a.df.head.renderSelf)
        ++ ("\n\nAdditional Context: " ++ contextText c)
        ++ ("\n\nQuestion: " ++ q)
        ++ promptTail)
    ∧ a.df.head.rows = a.df.rows.take 5
    ∧ contextText none = "No additional context provided" := by
  refine ⟨?_, rfl, rfl⟩
  simp only [generate_analysis_prompt_eq, datasetInfo, String.append_assoc]

/-- C4: `analyze` returns exactly what the selected provider's
`generate_response` returns for the built prompt; in the end-to-end
scenario where the local backend replies `{"response": "X"}`, the
orchestrator returns `"X"` and the download-button content is `"X"`. -/
theorem analyze_returns_provider_result :
    (∀ (a : DataAnalyzer) (q : String) (c : Option String)
       (net : Payload → HttpOutcome) (gem : String → String → PyResult String),
      a.analyze q c net gem =
        a.llm_provider.generate_response (a.generate_analysis_prompt q c) net gem)
    ∧ DataAnalyzer.analyze { df := dfSurvey, llm_provider := .ollama "llama2" }
        "What are the key differences in political party support between genders?"
        (some "") (fun _ => .reply 200 [("response", "X")]) gemUnused = .ok (some "X")
    ∧ (∃ t, analyze_click "Ollama" "llama2" "" dfSurvey "Gender-based Analysis" ""
          "What are the key differences in political party support between genders?"
          (fun _ => .reply 200 [("response", "X")]) gemUnused = .ok t
        ∧ t.resultShown = some "X" ∧ t.downloadData = some "X") := by
  refine ⟨fun a q c net gem => rfl, rfl, ⟨_, rfl, rfl, rfl⟩⟩

/-- C5: pressing Analyze with the hosted provider selected and an empty
API key shows the error and returns before a `GeminiProvider` is
constructed and before any backend call. -/
theorem missing_key_short_circuits (provider model apiKey : String) (df : DataFrame)
    (analysis_type context question : String)
    (net : Payload → HttpOutcome) (gem : String → String → PyResult String)
    (hp : provider ≠ "Ollama") (hk : apiKey = "") :
    analyze_click provider model apiKey df analysis_type context question net gem =
      .ok keyMissingTrace
    ∧ keyMissingTrace.errorMsgs = ["Please enter your Gemini API key in the sidebar"]
    ∧ keyMissingTrace.constructedGemini = false
    ∧ keyMissingTrace.backendCalled = false := by
  refine ⟨?_, rfl, rfl, rfl⟩
  simp [analyze_click, hp, hk]

/-- Witness for C5 at concrete inputs. -/
theorem missing_key_short_circuits_witness :
    analyze_click "Gemini Pro" "llama2" "" dfSurvey "Custom Query" "" "q"
        (fun _ => .transportError "unused") gemUnused = .ok keyMissingTrace
    ∧ keyMissingTrace.errorMsgs = ["Please enter your Gemini API key in the sidebar"]
    ∧ keyMissingTrace.constructedGemini = false
    ∧ keyMissingTrace.backendCalled = false :=
  missing_key_short_circuits "Gemini Pro" "llama2" "" dfSurvey "Custom Query" "" "q"
    (fun _ => .transportError "unused") gemUnused (by decide) rfl

/-- C6: when the generation attempt yields the failure sentinel `None`,
the flow produces the skip trace: no result rendering, no chart, no
download button. -/
theorem none_result_skips_rendering (llm : LLMProvider) (df : DataFrame)
    (analysis_type context question : String)
    (net : Payload → HttpOutcome) (gem : String → String → PyResult String)
    (h : DataAnalyzer.analyze { df := df, llm_provider := llm } question (some context)
           net gem = .ok none) :
    runAnalysis llm df analysis_type context question net gem = .ok (skipTrace llm.isGemini)
    ∧ (skipTrace llm.isGemini).resultShown = none
    ∧ (skipTrace llm.isGemini).chartShown = none
    ∧ (skipTrace llm.isGemini).downloadData = none := by
  refine ⟨?_, rfl, rfl, rfl⟩
  simp [runAnalysis, h, truthyStr]

/-- Witness for C6: an unreachable local backend yields the sentinel and
the skip trace. -/
theorem none_result_skips_rendering_witness :
    runAnalysis (.ollama "llama2") dfSurvey "Gender-based Analysis" "" "q"
        (fun _ => .transportError "down") gemUnused = .ok (skipTrace false)
    ∧ (skipTrace (LLMProvider.isGemini (.ollama "llama2"))).resultShown = none
    ∧ (skipTrace (LLMProvider.isGemini (.ollama "llama2"))).chartShown = none
    ∧ (skipTrace (LLMProvider.isGemini (.ollama "llama2"))).downloadData = none :=
  none_result_skips_rendering (.ollama "llama2") dfSurvey "Gender-based Analysis" "" "q"
    (fun _ => .transportError "down") gemUnused rfl

/-- C7: when the context argument is `None`, the built prompt contains
the literal placeholder text in the Additional Context position. -/
theorem prompt_none_context_has_placeholder (a : DataAnalyzer) (q : String) :
    ∃ s t, a.generate_analysis_prompt q none =
      s ++ ("No additional context provided" ++ t) := by
  refine ⟨promptHeader ++ datasetInfo a.df ++ "\n\nAdditional Context: ",
          "\n\nQuestion: " ++ q ++ promptTail, ?_⟩
  simp only [generate_analysis_prompt_eq, contextText, String.append_assoc]

/-- C8: prompt construction never mutates the dataset: the dataframe
held by the analyzer after building the prompt is the one held before. -/
theorem generate_analysis_prompt_preserves_df (a : DataAnalyzer) (q : String)
    (c : Option String) :
    (a.generate_analysis_prompt_run q c).2.df = a.df := rfl

/-- C10: an empty-string result is treated exactly like the failure
sentinel: the truthiness guard skips rendering, chart and download, and
the flow produces the very same skip trace as for `None`. -/
theorem empty_result_indistinguishable_from_failure (llm : LLMProvider) (df : DataFrame)
    (analysis_type context question : String)
    (net : Payload → HttpOutcome) (gem : String → String → PyResult String)
    (h : DataAnalyzer.analyze { df := df, llm_provider := llm } question (some context)
           net gem = .ok (some "")) :
    runAnalysis llm df analysis_type context question net gem = .ok (skipTrace llm.isGemini)
    ∧ truthyStr (some "") = truthyStr none
    ∧ (skipTrace llm.isGemini).resultShown = none
    ∧ (skipTrace llm.isGemini).chartShown = none
    ∧ (skipTrace llm.isGemini).downloadData = none := by
  refine ⟨?_, rfl, rfl, rfl, rfl⟩
  simp [runAnalysis, h, show truthyStr (some "") = false from rfl]

/-- Witness for C10: a backend reply whose `response` field is the empty
string produces the same skip trace as a failure. -/
theorem empty_result_indistinguishable_from_failure_witness :
    runAnalysis (.ollama "llama2") dfSurvey "Gender-based Analysis" "" "q"
        (fun _ => .reply 200 [("response", "")]) gemUnused = .ok (skipTrace false)
    ∧ truthyStr (some "") = truthyStr none
    ∧ (skipTrace (LLMProvider.isGemini (.ollama "llama2"))).resultShown = none
    ∧ (skipTrace (LLMProvider.isGemini (.ollama "llama2"))).chartShown = none
    ∧ (skipTrace (LLMProvider.isGemini (.ollama "llama2"))).downloadData = none :=
  empty_result_indistinguishable_from_failure (.ollama "llama2") dfSurvey
    "Gender-based Analysis" "" "q" (fun _ => .reply 200 [("response", "")]) gemUnused rfl
